import Mathlib

/-!
Shallow embedding of `src/channel.rs` from the etcd-client repository:
the generic `Change` event type, the two bridge tasks spawned by the
`BalancedChannelBuilder` implementations (`Tonic` and `Openssl`), the
`Channel` / `ChannelFuture` dispatch layer, and the builders themselves.
-/

namespace EtcdChannel

/-- `Change<K, V>`: a change in the service set (`src/channel.rs` lines 9-15).
`Insert(k, v)` announces a new service identified by key `k`; `Remove(k)`
announces that the service identified by `k` disappeared. -/
inductive Change (K V : Type) where
  | Insert (k : K) (v : V)
  | Remove (k : K)
deriving DecidableEq, Repr

/-- `tonic::transport::channel::Change<K, V>`: the tonic backend's native
update representation, targeted by the `Tonic` bridge's `match` (lines 47-50). -/
inductive TonicChange (K V : Type) where
  | Insert (k : K) (v : V)
  | Remove (k : K)
deriving DecidableEq, Repr

/-- `tower::discover::Change<K, V>`: the tower backend's native update
representation, targeted by the `Openssl` bridge's `match` (lines 81-84). -/
inductive TowerChange (K V : Type) where
  | Insert (k : K) (v : V)
  | Remove (k : K)
deriving DecidableEq, Repr

/-- The tag translation performed by the `Tonic` bridge task (lines 47-50):
`Change::Insert(k, v) => tonic Change::Insert(k, v)`,
`Change::Remove(k) => tonic Change::Remove(k)`. -/
def translateTonic {K V : Type} : Change K V → TonicChange K V
  | .Insert k v => .Insert k v
  | .Remove k => .Remove k

/-- The tag translation performed by the `Openssl` bridge task (lines 81-84):
`Change::Insert(k, v) => tower Change::Insert(k, v)`,
`Change::Remove(k) => tower Change::Remove(k)`. -/
def translateTower {K V : Type} : Change K V → TowerChange K V
  | .Insert k v => .Insert k v
  | .Remove k => .Remove k

/-- Why the bridge loop (lines 46-55 / 80-89) exited: `sinkClosed` models
`rx.recv()` returning `None` (all sink producers dropped), `backendClosed`
models `tx.send(change)` returning `Err` followed by `break`. The type has
no error constructor: the loop surfaces nothing to the publisher. -/
inductive BridgeExit where
  | sinkClosed
  | backendClosed
deriving DecidableEq, Repr

/-- The bridge task loop spawned by `balanced_channel` (lines 46-55 for
`Tonic` with `tr = translateTonic`, lines 80-89 for `Openssl` with
`tr = translateTower`):

```
while let Some(change) = rx.recv().await {
    let change = tr(change);
    if let Err(_) = tx.send(change).await { break; }
}
```

`events` is the ordered sequence of events accepted by the sink that the
loop receives before end-of-stream; the backend queue `tx` is modelled by
the number of sends it accepts before it is closed (`some n`: the first
`n` sends succeed and every later send fails; `none`: the queue is never
closed). The result is the ordered list of values actually sent into the
backend queue, paired with the reason the loop terminated. -/
def bridgeRun {K V β : Type} (tr : Change K V → β) :
    List (Change K V) → Option Nat → List β × BridgeExit
  | [], _ => ([], .sinkClosed)
  | _ :: _, some 0 => ([], .backendClosed)
  | c :: rest, some (n + 1) =>
      let r := bridgeRun tr rest (some n)
      (tr c :: r.1, r.2)
  | c :: rest, none =>
      let r := bridgeRun tr rest none
      (tr c :: r.1, r.2)

/-- When the backend queue never closes, the bridge forwards every received
event, translated, in order, and exits because the sink closed. -/
theorem bridgeRun_none {K V β : Type} (tr : Change K V → β)
    (events : List (Change K V)) :
    bridgeRun tr events none = (events.map tr, .sinkClosed) := by
  induction events with
  | nil => rfl
  | cons c rest ih => simp [bridgeRun, ih]

/-- When the backend queue closes after accepting `n` sends, the forwarded
list is exactly the translated `n`-element prefix of the received events. -/
theorem bridgeRun_some_fst {K V β : Type} (tr : Change K V → β)
    (events : List (Change K V)) (n : Nat) :
    (bridgeRun tr events (some n)).1 = (events.take n).map tr := by
  induction events generalizing n with
  | nil => simp [bridgeRun]
  | cons c rest ih =>
      cases n with
      | zero => simp [bridgeRun]
      | succ m => simp [bridgeRun, ih]

/-- When the backend queue closes before all received events are forwarded,
the loop exits through the `break` of the failed send. -/
theorem bridgeRun_some_exit {K V β : Type} (tr : Change K V → β)
    (events : List (Change K V)) (n : Nat) (h : n < events.length) :
    (bridgeRun tr events (some n)).2 = .backendClosed := by
  induction events generalizing n with
  | nil => simp at h
  | cons c rest ih =>
      cases n with
      | zero => rfl
      | succ m =>
          simp only [bridgeRun]
          exact ih m (by simpa using h)

/-- `std::task::Poll`: the outcome of one poll of a suspended computation. -/
inductive Poll (α : Type) where
  | Pending
  | Ready (a : α)
deriving DecidableEq, Repr

/-- Opaque model of `tonic::transport::Error`, the tonic backend's native
error type (the builder's `Error` and the tonic channel's `Service::Error`). -/
structure TonicError where
  code : Nat
deriving DecidableEq, Repr

/-- Opaque model of `http::Request<tonic::body::Body>` (`TonicRequest`). -/
structure TonicRequest where
  body : Nat
deriving DecidableEq, Repr

/-- Opaque model of `http::Response<tonic::body::Body>` (`TonicResponse`). -/
structure TonicResponse where
  body : Nat
deriving DecidableEq, Repr

/-- `tower::BoxError` (`Box<dyn Error>`): a trait object that may hold any
boxed error. The constructor `tonic` models `Box::new(e) as tower::BoxError`
applied to a `tonic::transport::Error`; `other` models every other boxed
error value (as produced by the Openssl and Custom backends). -/
inductive BoxError where
  | tonic (e : TonicError)
  | other (payload : Nat)
deriving DecidableEq, Repr

/-- The tonic backend future's output type:
`Result<TonicResponse, tonic::transport::Error>`. -/
abbrev TonicResult := Except TonicError TonicResponse

/-- The boxed output type `Result<TonicResponse, tower::BoxError>`, the
`Output` of `ChannelFuture` and of the Openssl and Custom backend futures. -/
abbrev BoxResult := Except BoxError TonicResponse

/-- Opaque stateful model of `tonic::transport::Channel` as a
`Service<TonicRequest>`: an internal state together with the behaviour of its
two operations. `readyStep s` is what one `poll_ready` call does in state
`s` (successor state and outcome, with the backend's native error type);
`callStep s req` is what `call(req)` does in state `s` (successor state and
the backend's own future, represented by the outcome that future yields). -/
structure TonicChannel where
  state : Nat
  readyStep : Nat → Nat × Poll (Except TonicError Unit)
  callStep : Nat → TonicRequest → Nat × Poll TonicResult

/-- Opaque stateful model of `crate::openssl_tls::OpenSslChannel` as a
`Service<TonicRequest>`; its error type is already `tower::BoxError`. -/
structure OpenSslChannel where
  state : Nat
  readyStep : Nat → Nat × Poll (Except BoxError Unit)
  callStep : Nat → TonicRequest → Nat × Poll BoxResult

/-- Opaque stateful model of
`CustomChannel = BoxCloneService<TonicRequest, TonicResponse, tower::BoxError>`,
the externally supplied backend. -/
structure CustomChannel where
  state : Nat
  readyStep : Nat → Nat × Poll (Except BoxError Unit)
  callStep : Nat → TonicRequest → Nat × Poll BoxResult

/-- `Channel` (lines 102-113): exactly one of a closed set of backend
variants — a standard tonic channel, an OpenSSL channel, or a custom boxed
`Service`. -/
inductive Channel where
  | Tonic (c : TonicChannel)
  | Openssl (c : OpenSslChannel)
  | Custom (c : CustomChannel)

/-- The variant tag of a `Channel`. -/
inductive ChannelTag where
  | Tonic
  | Openssl
  | Custom
deriving DecidableEq, Repr

/-- Which backend variant a `Channel` currently holds. -/
def Channel.tag : Channel → ChannelTag
  | .Tonic _ => .Tonic
  | .Openssl _ => .Openssl
  | .Custom _ => .Custom

/-- `ChannelFuture` (lines 121-126): the pending-call sum type, one variant
per backend, each holding that backend's own future (represented by the
outcome the inner future yields when polled). -/
inductive ChannelFuture where
  | Tonic (fut : Poll TonicResult)
  | Openssl (fut : Poll BoxResult)
  | Custom (fut : Poll BoxResult)

/-- Which backend variant a `ChannelFuture` holds. -/
def ChannelFuture.tag : ChannelFuture → ChannelTag
  | .Tonic _ => .Tonic
  | .Openssl _ => .Openssl
  | .Custom _ => .Custom

/-- `impl Future for ChannelFuture::poll` (lines 128-157): the `Tonic` arm
runs `ready!` on the inner future and maps the error through
`Box::new(e) as tower::BoxError`; the `Openssl` and `Custom` arms return
the inner future's poll result unchanged. -/
def ChannelFuture.poll : ChannelFuture → Poll BoxResult
  | .Tonic fut =>
      match fut with
      | .Pending => .Pending
      | .Ready result => .Ready (result.mapError BoxError.tonic)
  | .Openssl fut => fut
  | .Custom fut => fut

/-- `ChannelFuture::from_tonic` (lines 160-163). -/
def ChannelFuture.from_tonic (value : Poll TonicResult) : ChannelFuture :=
  .Tonic value

/-- `ChannelFuture::from_openssl` (lines 165-171). -/
def ChannelFuture.from_openssl (value : Poll BoxResult) : ChannelFuture :=
  .Openssl value

/-- `ChannelFuture::from_custom` (lines 173-176). -/
def ChannelFuture.from_custom (value : Poll BoxResult) : ChannelFuture :=
  .Custom value

/-- `impl Service<TonicRequest> for Channel`, `poll_ready` (lines 184-198):
dispatches to the active backend's `poll_ready`; the `Tonic` arm runs
`ready!` and boxes the native error, the other arms pass the result through.
Since Rust's `poll_ready(&mut self)` may mutate the backend in place, the
model returns the updated `Channel` alongside the outcome. -/
def Channel.poll_ready : Channel → Channel × Poll (Except BoxError Unit)
  | .Tonic c =>
      let r := c.readyStep c.state
      (.Tonic { c with state := r.1 },
        match r.2 with
        | .Pending => .Pending
        | .Ready result => .Ready (result.mapError BoxError.tonic))
  | .Openssl c =>
      let r := c.readyStep c.state
      (.Openssl { c with state := r.1 }, r.2)
  | .Custom c =>
      let r := c.readyStep c.state
      (.Custom { c with state := r.1 }, r.2)

/-- `impl Service<TonicRequest> for Channel`, `call` (lines 200-208): a pure
tag match on the active variant handing the request, unchanged, to that
backend's `call` and wrapping the returned backend future in the matching
`ChannelFuture` variant. The updated `Channel` is returned alongside, as
`call(&mut self, req)` may mutate the backend in place. -/
def Channel.call : Channel → TonicRequest → Channel × ChannelFuture
  | .Tonic c, req =>
      let r := c.callStep c.state req
      (.Tonic { c with state := r.1 }, ChannelFuture.from_tonic r.2)
  | .Openssl c, req =>
      let r := c.callStep c.state req
      (.Openssl { c with state := r.1 }, ChannelFuture.from_openssl r.2)
  | .Custom c, req =>
      let r := c.callStep c.state req
      (.Custom { c with state := r.1 }, ChannelFuture.from_custom r.2)

/-- Opaque model of `http::Uri`, the key identifying a reachable endpoint. -/
structure Uri where
  raw : Nat
deriving DecidableEq, Repr

/-- Opaque model of `tonic::transport::Endpoint`, the connection template
published together with an `Insert`. -/
structure Endpoint where
  raw : Nat
deriving DecidableEq, Repr

/-- Model of a bounded `tokio::sync::mpsc::Sender<α>`: what the claims
observe of it is its capacity. `EndpointUpdater = Sender<Change<Uri, Endpoint>>`
is `Sender (Change Uri Endpoint)`. -/
structure Sender (α : Type) where
  capacity : Nat
deriving DecidableEq, Repr

/-- Model of `tokio::sync::mpsc::channel(buffer)` (the pair collapsed to its
sender; the receiver is consumed by the bridge task): it returns a bounded
queue of capacity exactly `buffer`, and per the tokio documentation it
panics when `buffer = 0` (modelled as `none`). -/
def mpsc_channel (α : Type) (buffer : Nat) : Option (Sender α) :=
  if buffer = 0 then none else some ⟨buffer⟩

/-- Model value for the opaque `tonic::transport::Channel` returned by
`balance_channel`; its dispatch behaviour belongs to the backend and is not
observed by any claim, so the model fixes an arbitrary one. -/
def balanceChannelInit : TonicChannel :=
  { state := 0
    readyStep := fun s => (s, .Pending)
    callStep := fun s _ => (s, .Pending) }

/-- Model of `tonic::transport::Channel::balance_channel(buffer_size)`: it
returns a fresh channel and the update sender of an internal tokio mpsc
queue of the given capacity, infallibly — except that, like the underlying
`tokio::sync::mpsc::channel`, it panics when `buffer_size = 0` (modelled as
`none`). -/
def tonic_balance_channel (buffer_size : Nat) :
    Option (TonicChannel × Sender (TonicChange Uri Endpoint)) :=
  (mpsc_channel (TonicChange Uri Endpoint) buffer_size).map
    fun tx => (balanceChannelInit, tx)

/-- Model of the error type `crate::error::Error`, the Openssl builder's
construction-error type. -/
structure CrateError where
  code : Nat
deriving DecidableEq, Repr

/-- Model of `crate::openssl_tls::OpenSslConnector`: the claims observe only
whether the configuration it carries is valid (and, if not, which error the
pool construction reports). -/
structure OpenSslConnector where
  valid : Bool
  errCode : Nat
deriving DecidableEq, Repr

/-- Model value for the opaque `OpenSslChannel` produced by a successful pool
construction; as for `balanceChannelInit`, no claim observes its behaviour. -/
def opensslChannelInit : OpenSslChannel :=
  { state := 0
    readyStep := fun s => (s, .Pending)
    callStep := fun s _ => (s, .Pending) }

/-- Modelled from the spec: `crate::openssl_tls::balanced_channel` is code of
this repository that is not under `src/`. Per the spec, a builder "fails
synchronously with a backend-specific construction error when configuration
is invalid (malformed endpoint template, TLS context build failure, resource
exhaustion)"; on success it returns the TLS-backed channel together with that
pool's own internal update-queue sender. -/
def openssl_tls_balanced_channel (conn : OpenSslConnector) :
    Except CrateError (OpenSslChannel × Sender (TowerChange Uri Endpoint)) :=
  if conn.valid then .ok (opensslChannelInit, ⟨1⟩) else .error ⟨conn.errCode⟩

/-- The observable outcome of one `balanced_channel` call: `panic` models an
uncaught panic during construction, `ok` the `Ok((channel, updater))` return
value, and `err e` the `Err(e)` return with the builder's error type. -/
inductive BuildResult (ε : Type) where
  | panic
  | ok (channel : Channel) (updater : Sender (Change Uri Endpoint))
  | err (e : ε)

/-- `impl BalancedChannelBuilder for Tonic`, `balanced_channel`
(lines 34-60): builds the tonic balanced channel, opens the bridge mpsc
queue with capacity `buffer_size`, spawns the bridge task (whose loop is
modelled by `bridgeRun translateTonic`), and returns
`Ok((Channel::Tonic(chan), bridge_tx))`. -/
def Tonic.balanced_channel (buffer_size : Nat) : BuildResult TonicError :=
  match tonic_balance_channel buffer_size with
  | none => .panic
  | some (chan, _tx) =>
      match mpsc_channel (Change Uri Endpoint) buffer_size with
      | none => .panic
      | some bridge_tx => .ok (.Tonic chan) bridge_tx

/-- `impl BalancedChannelBuilder for Openssl`, `balanced_channel`
(lines 69-94): builds the TLS pool first (propagating its error with `?`),
then opens the bridge mpsc queue with capacity `buffer_size`, spawns the
bridge task (modelled by `bridgeRun translateTower`), and returns
`Ok((Channel::Openssl(chan), bridge_tx))`. -/
def Openssl.balanced_channel (conn : OpenSslConnector) (buffer_size : Nat) :
    BuildResult CrateError :=
  match openssl_tls_balanced_channel conn with
  | .error e => .err e
  | .ok (chan, _tx) =>
      match mpsc_channel (Change Uri Endpoint) buffer_size with
      | none => .panic
      | some bridge_tx => .ok (.Openssl chan) bridge_tx

/-- C1: the events a bridge task forwards into the backend update queue are,
in order, exactly the translated accepted prefix of the events it received
(the whole received sequence when the backend queue stays open), and the
translation changes only the variant tag, preserving each event's key and
value — for both the Tonic and the Openssl bridge. -/
theorem c1_bridge_preserves_order_and_content
    (events : List (Change Uri Endpoint)) :
    (∀ (k : Uri) (v : Endpoint),
      translateTonic (Change.Insert k v) = TonicChange.Insert k v) ∧
    (∀ k : Uri, @translateTonic Uri Endpoint (Change.Remove k) = TonicChange.Remove k) ∧
    (∀ (k : Uri) (v : Endpoint),
      translateTower (Change.Insert k v) = TowerChange.Insert k v) ∧
    (∀ k : Uri, @translateTower Uri Endpoint (Change.Remove k) = TowerChange.Remove k) ∧
    (bridgeRun translateTonic events none).1 = events.map translateTonic ∧
    (∀ n, (bridgeRun translateTonic events (some n)).1 =
      (events.take n).map translateTonic) ∧
    (bridgeRun translateTower events none).1 = events.map translateTower ∧
    (∀ n, (bridgeRun translateTower events (some n)).1 =
      (events.take n).map translateTower) := by
  refine ⟨fun k v => rfl, fun k => rfl, fun k v => rfl, fun k => rfl, ?_, ?_, ?_, ?_⟩
  · rw [bridgeRun_none]
  · exact fun n => bridgeRun_some_fst translateTonic events n
  · rw [bridgeRun_none]
  · exact fun n => bridgeRun_some_fst translateTower events n

/-- The tag translations are injective: distinct received events stay
distinct after translation, so multiplicities transfer. -/
theorem translateTonic_injective {K V : Type} :
    Function.Injective (@translateTonic K V) := by
  intro a b h
  cases a <;> cases b <;> simp_all [translateTonic]

/-- C2 counterexample: an event accepted by the Change Sink is lost when the
backend queue closes before the bridge forwards it. With accepted sequence
`[Insert 0 0]` and a backend queue already closed (zero sends accepted), the
bridge forwards nothing — the accepted event is forwarded zero times, not
exactly once. -/
theorem c2_exactly_once_counterexample :
    (bridgeRun (@translateTonic Nat Nat) [Change.Insert 0 0] (some 0)).1.count
        (TonicChange.Insert 0 0) = 0 ∧
    (bridgeRun (@translateTonic Nat Nat) [Change.Insert 0 0] (some 0)).1 = [] := by
  decide

/-- The Openssl bridge's tag translation is injective as well. -/
theorem translateTower_injective {K V : Type} :
    Function.Injective (@translateTower K V) := by
  intro a b h
  cases a <;> cases b <;> simp_all [translateTower]

/-- Multiplicity conservation of the bridge loop for any injective tag
translation: each received event occurrence is forwarded at most once for
every backend-queue closure point, and exactly once when the backend queue
is never closed. -/
theorem bridgeRun_count {K V β : Type} [DecidableEq K] [DecidableEq V]
    [DecidableEq β] (tr : Change K V → β) (htr : Function.Injective tr)
    (events : List (Change K V)) (c : Change K V) (q : Option Nat) :
    (bridgeRun tr events q).1.count (tr c) ≤ events.count c ∧
    (bridgeRun tr events none).1.count (tr c) = events.count c := by
  have hmap : ∀ l : List (Change K V),
      (l.map tr).count (tr c) = l.count c := by
    intro l
    exact List.count_map_of_injective l tr htr c
  constructor
  · cases q with
    | none =>
        rw [bridgeRun_none]
        exact le_of_eq (hmap events)
    | some n =>
        rw [bridgeRun_some_fst, hmap (events.take n)]
        exact List.Sublist.count_le (List.take_sublist n events) c
  · rw [bridgeRun_none]
    exact hmap events

/-- C2 (amended): every Change Event accepted by the Change Sink is forwarded
at most once for every backend-queue closure point, and exactly once whenever
the backend queue is never closed; an accepted event can be lost (forwarded
zero times) only when the backend queue closes first. Stated as multiplicity
conservation at every occurrence count, for both the Tonic and the Openssl
bridge task. -/
theorem c2_forward_multiplicity {K V : Type} [DecidableEq K] [DecidableEq V]
    (events : List (Change K V)) (c : Change K V) (q : Option Nat) :
    ((bridgeRun translateTonic events q).1.count (translateTonic c) ≤
        events.count c ∧
      (bridgeRun translateTonic events none).1.count (translateTonic c) =
        events.count c) ∧
    ((bridgeRun translateTower events q).1.count (translateTower c) ≤
        events.count c ∧
      (bridgeRun translateTower events none).1.count (translateTower c) =
        events.count c) :=
  ⟨bridgeRun_count translateTonic translateTonic_injective events c q,
    bridgeRun_count translateTower translateTower_injective events c q⟩

/-- C3: when a forward fails because the backend queue is closed (it accepted
only `n` sends and more than `n` events were received), the bridge terminates
at once through the `break`: the failing event is not retried, no later event
is forwarded — the output is exactly the translated accepted prefix — and the
exit is `backendClosed`, a value of a type with no error constructor, so
nothing is surfaced to the publisher. -/
theorem c3_backend_closed_terminates {K V β : Type} (tr : Change K V → β)
    (events : List (Change K V)) (n : Nat) (h : n < events.length) :
    bridgeRun tr events (some n) = ((events.take n).map tr, .backendClosed) := by
  have h1 := bridgeRun_some_fst tr events n
  have h2 := bridgeRun_some_exit tr events n h
  rw [Prod.ext_iff]
  exact ⟨h1, h2⟩

/-- Witness for C3 at a concrete input. -/
theorem c3_backend_closed_terminates_witness :
    0 < ([Change.Insert 0 0] : List (Change Nat Nat)).length ∧
    bridgeRun translateTonic [Change.Insert (0 : Nat) (0 : Nat)] (some 0) =
      ([], .backendClosed) :=
  ⟨by decide,
    c3_backend_closed_terminates translateTonic [Change.Insert 0 0] 0 (by decide)⟩

/-- C4: when the last producer handle of the Change Sink is dropped (so the
bridge's `rx.recv()` eventually yields `None`), the loop forwards every event
already buffered, translated and in order, and then terminates with the
non-error exit `sinkClosed`. -/
theorem c4_sink_closed_drains_then_stops {K V β : Type} (tr : Change K V → β)
    (events : List (Change K V)) :
    bridgeRun tr events none = (events.map tr, .sinkClosed) :=
  bridgeRun_none tr events

/-- C5: a completed Pending Call yields exactly the backend's own result or
error, with one normalization: the `Tonic` arm of `ChannelFuture::poll`
keeps a successful response unchanged and boxes a native error
(`Box::new(e) as tower::BoxError`), a pending Tonic inner future stays
pending through `ready!`, and the `Openssl` and `Custom` arms return the
inner future's output completely unchanged. -/
theorem c5_completion_passthrough (r : TonicResult) (resp : TonicResponse)
    (e : TonicError) (f g : Poll BoxResult) :
    ChannelFuture.poll (.Tonic (.Ready r)) = .Ready (r.mapError BoxError.tonic) ∧
    ChannelFuture.poll (.Tonic (.Ready (.ok resp))) = .Ready (.ok resp) ∧
    ChannelFuture.poll (.Tonic (.Ready (.error e))) =
      .Ready (.error (BoxError.tonic e)) ∧
    ChannelFuture.poll (.Tonic .Pending) = .Pending ∧
    ChannelFuture.poll (.Openssl f) = f ∧
    ChannelFuture.poll (.Custom g) = g :=
  ⟨rfl, rfl, rfl, rfl, rfl, rfl⟩

/-- C6: a readiness-check failure is reported in the single generic boxed
error shape on every variant: the `Tonic` arm of `poll_ready` wraps the
backend's native readiness error with `Box::new(e) as tower::BoxError` (and
keeps a readiness success unchanged), while the `Openssl` and `Custom` arms
return the backend's readiness outcome — already of that shape — unchanged,
so the outcome type is `Poll<Result<(), tower::BoxError>>` for every
backend. -/
theorem c6_poll_ready_error_shape (t : TonicChannel) (o : OpenSslChannel)
    (u : CustomChannel) :
    (∀ e, (t.readyStep t.state).2 = .Ready (.error e) →
      (Channel.poll_ready (.Tonic t)).2 = .Ready (.error (BoxError.tonic e))) ∧
    ((t.readyStep t.state).2 = .Ready (.ok ()) →
      (Channel.poll_ready (.Tonic t)).2 = .Ready (.ok ())) ∧
    ((t.readyStep t.state).2 = .Pending →
      (Channel.poll_ready (.Tonic t)).2 = .Pending) ∧
    (Channel.poll_ready (.Openssl o)).2 = (o.readyStep o.state).2 ∧
    (Channel.poll_ready (.Custom u)).2 = (u.readyStep u.state).2 := by
  refine ⟨fun e he => ?_, fun hok => ?_, fun hp => ?_, rfl, rfl⟩ <;>
    simp [Channel.poll_ready, Except.mapError, *]

/-- C7: a Channel's active backend variant never changes after
construction: `poll_ready` and `call` return a channel of the same variant
(only the opaque backend-internal state advances), and `call` on a given
variant returns a `ChannelFuture` of the matching variant wrapping that
backend's own future obtained from the unchanged request. -/
theorem c7_variant_fixed (ch : Channel) (req : TonicRequest) :
    ((Channel.poll_ready ch).1).tag = ch.tag ∧
    ((Channel.call ch req).1).tag = ch.tag ∧
    ((Channel.call ch req).2).tag = ch.tag ∧
    (∀ t : TonicChannel, ch = .Tonic t →
      (Channel.call ch req).2 = .Tonic ((t.callStep t.state req).2)) ∧
    (∀ o : OpenSslChannel, ch = .Openssl o →
      (Channel.call ch req).2 = .Openssl ((o.callStep o.state req).2)) ∧
    (∀ u : CustomChannel, ch = .Custom u →
      (Channel.call ch req).2 = .Custom ((u.callStep u.state req).2)) := by
  cases ch <;>
    simp [Channel.poll_ready, Channel.call, Channel.tag, ChannelFuture.tag,
      ChannelFuture.from_tonic, ChannelFuture.from_openssl,
      ChannelFuture.from_custom]

/-- A concrete tonic backend channel used to instantiate theorems with
hypotheses: in its initial state, `poll_ready` reports the native error
`⟨7⟩` and `call` answers a request `⟨b⟩` with response `⟨b⟩`. -/
def exampleTonicChannel : TonicChannel :=
  { state := 0
    readyStep := fun s => (s + 1, .Ready (.error ⟨7⟩))
    callStep := fun s req => (s + 1, .Ready (.ok ⟨req.body⟩)) }

/-- A concrete Openssl backend channel used to instantiate theorems. -/
def exampleOpenSslChannel : OpenSslChannel :=
  { state := 0
    readyStep := fun s => (s, .Ready (.ok ()))
    callStep := fun s req => (s, .Ready (.ok ⟨req.body⟩)) }

/-- A concrete custom backend channel used to instantiate theorems. -/
def exampleCustomChannel : CustomChannel :=
  { state := 0
    readyStep := fun s => (s, .Ready (.ok ()))
    callStep := fun s req => (s, .Ready (.ok ⟨req.body⟩)) }

/-- Witness for C6 at a concrete channel whose backend readiness check
fails with native error `⟨7⟩`. -/
theorem c6_poll_ready_error_shape_witness :
    (exampleTonicChannel.readyStep exampleTonicChannel.state).2 =
      .Ready (.error ⟨7⟩) ∧
    (Channel.poll_ready (.Tonic exampleTonicChannel)).2 =
      .Ready (.error (BoxError.tonic ⟨7⟩)) :=
  ⟨rfl,
    (c6_poll_ready_error_shape exampleTonicChannel exampleOpenSslChannel
      exampleCustomChannel).1 ⟨7⟩ rfl⟩

/-- Witness for C7 at a concrete channel and request. -/
theorem c7_variant_fixed_witness :
    (Channel.Tonic exampleTonicChannel = Channel.Tonic exampleTonicChannel) ∧
    (Channel.call (.Tonic exampleTonicChannel) ⟨5⟩).2 =
      .Tonic (.Ready (.ok ⟨5⟩)) :=
  ⟨rfl,
    (c7_variant_fixed (.Tonic exampleTonicChannel) ⟨5⟩).2.2.2.1
      exampleTonicChannel rfl⟩

/-- With a positive buffer the Tonic builder reaches its `Ok` return, with
the bridge sender drawn from `tokio::sync::mpsc::channel(buffer_size)`. -/
theorem tonic_balanced_channel_pos (buffer_size : Nat) (h : buffer_size ≠ 0) :
    Tonic.balanced_channel buffer_size =
      .ok (.Tonic balanceChannelInit) ⟨buffer_size⟩ := by
  simp [Tonic.balanced_channel, tonic_balance_channel, mpsc_channel, h]

/-- With a valid configuration and a positive buffer the Openssl builder
reaches its `Ok` return, with the bridge sender drawn from
`tokio::sync::mpsc::channel(buffer_size)`. -/
theorem openssl_balanced_channel_pos (conn : OpenSslConnector)
    (buffer_size : Nat) (hv : conn.valid = true) (h : buffer_size ≠ 0) :
    Openssl.balanced_channel conn buffer_size =
      .ok (.Openssl opensslChannelInit) ⟨buffer_size⟩ := by
  simp [Openssl.balanced_channel, openssl_tls_balanced_channel, mpsc_channel,
    hv, h]

/-- C8: whenever `balanced_channel` succeeds, the returned Change Sink — the
sender of the bridge's `tokio::sync::mpsc::channel(buffer_size)` — has
capacity exactly the `buffer_size` argument, for both the Tonic and the
Openssl builder. -/
theorem c8_sink_capacity (buffer_size : Nat) (conn : OpenSslConnector)
    (ch ch' : Channel) (sink sink' : Sender (Change Uri Endpoint)) :
    (Tonic.balanced_channel buffer_size = .ok ch sink →
      sink.capacity = buffer_size) ∧
    (Openssl.balanced_channel conn buffer_size = .ok ch' sink' →
      sink'.capacity = buffer_size) := by
  constructor
  · intro h
    rcases Nat.eq_zero_or_pos buffer_size with h0 | h0
    · subst h0
      simp [Tonic.balanced_channel, tonic_balance_channel, mpsc_channel] at h
    · rw [tonic_balanced_channel_pos buffer_size (Nat.pos_iff_ne_zero.mp h0)] at h
      injection h with h1 h2
      rw [← h2]
  · intro h
    rcases Nat.eq_zero_or_pos buffer_size with h0 | h0
    · subst h0
      cases hv : conn.valid <;>
        simp [Openssl.balanced_channel, openssl_tls_balanced_channel,
          mpsc_channel, hv] at h
    · cases hv : conn.valid
      · simp [Openssl.balanced_channel, openssl_tls_balanced_channel, hv] at h
      · rw [openssl_balanced_channel_pos conn buffer_size hv
            (Nat.pos_iff_ne_zero.mp h0)] at h
        injection h with h1 h2
        rw [← h2]

/-- Witness for C8 at `buffer_size = 1`. -/
theorem c8_sink_capacity_witness :
    Tonic.balanced_channel 1 = .ok (.Tonic balanceChannelInit) ⟨1⟩ ∧
    (Sender.mk 1 : Sender (Change Uri Endpoint)).capacity = 1 :=
  ⟨rfl,
    (c8_sink_capacity 1 ⟨true, 0⟩ (.Tonic balanceChannelInit)
      (.Tonic balanceChannelInit) ⟨1⟩ ⟨1⟩).1 rfl⟩

/-- C9: `balanced_channel` with `buffer_size = 0` panics — the bounded tokio
queue requires strictly positive capacity — instead of returning a
construction error: the Tonic builder panics unconditionally at 0, and the
Openssl builder panics at 0 whenever its configuration is valid (an invalid
configuration still errors first, at the pool construction preceding the
queue). The builders' contract therefore carries the unstated precondition
`buffer_size >= 1`. -/
theorem c9_zero_buffer_panics (conn : OpenSslConnector) :
    Tonic.balanced_channel 0 = .panic ∧
    (conn.valid = true → Openssl.balanced_channel conn 0 = .panic) := by
  refine ⟨rfl, fun hv => ?_⟩
  simp [Openssl.balanced_channel, openssl_tls_balanced_channel, mpsc_channel,
    hv]

/-- Witness for C9 at a concrete valid configuration. -/
theorem c9_zero_buffer_panics_witness :
    (OpenSslConnector.mk true 0).valid = true ∧
    Openssl.balanced_channel ⟨true, 0⟩ 0 = .panic :=
  ⟨rfl, (c9_zero_buffer_panics ⟨true, 0⟩).2 rfl⟩

/-- C10: for every `buffer_size >= 1` the Tonic builder never returns a
construction error: it returns `Ok` with the channel in the `Tonic` variant
and a live Change Sink of positive capacity, so the spec's synchronous
construction-failure case is unreachable for this backend. -/
theorem c10_tonic_builder_never_errs (buffer_size : Nat)
    (h : 1 ≤ buffer_size) :
    Tonic.balanced_channel buffer_size =
      .ok (.Tonic balanceChannelInit) ⟨buffer_size⟩ ∧
    0 < (Sender.mk buffer_size : Sender (Change Uri Endpoint)).capacity ∧
    ∀ e : TonicError, Tonic.balanced_channel buffer_size ≠ .err e := by
  have hne : buffer_size ≠ 0 := Nat.one_le_iff_ne_zero.mp h
  refine ⟨tonic_balanced_channel_pos buffer_size hne, h, fun e hcontra => ?_⟩
  rw [tonic_balanced_channel_pos buffer_size hne] at hcontra
  exact BuildResult.noConfusion hcontra

/-- Witness for C10 at `buffer_size = 1`. -/
theorem c10_tonic_builder_never_errs_witness :
    1 ≤ 1 ∧ Tonic.balanced_channel 1 = .ok (.Tonic balanceChannelInit) ⟨1⟩ :=
  ⟨Nat.le_refl 1, (c10_tonic_builder_never_errs 1 (Nat.le_refl 1)).1⟩

end EtcdChannel
